import Mathlib

/-!
Verification of the workflow orchestrator of the ai-slack-bot repository.

The development shallowly embeds the two orchestrator implementations:

* `src/agents/agent/workflow_manager.py` (`WorkflowManager.create_workflow_graph`),
  a LangGraph state machine over the pydantic `State` of `src/agents/agent/state.py`,
  together with `src/agents/agent/user_proxy.py` (`UserProxyAgent.execute`) and
  `src/agents/models/open_ai.py` (`OpenAIModelHandler.invoke_llm`);
* `src/ai_agent_v2/mcp-client/core/graph.py` (`GraphManager.build_graph` and the
  `determine_*` routing functions) over `GraphState`, together with the node agents
  in `src/ai_agent_v2/mcp-client/agents/` and the heuristic classifier
  `src/ai_agent_v2/langchain_mcp/core/query_router.py`.

External capabilities (LLM calls, SQL execution, Slack/Notion/GitHub tools) are
opaque in the source; they are modelled as oracle values threaded through the
step functions.  A Python call that may raise is modelled as `Except String α`:
the `.error` constructor carries the exception text, and a `try/except` block in
the source becomes a `match` on that value.  All decision logic (branch
conditions, message construction, routing) is translated verbatim.
-/

namespace PyStr

/-- Whether the first char list is a prefix of the second. -/
def isPrefixL : List Char → List Char → Bool
  | [], _ => true
  | _ :: _, [] => false
  | a :: as, b :: bs => a == b && isPrefixL as bs

/-- Substring test on char lists (helper for `pyContains`). -/
def containsL : List Char → List Char → Bool
  | hay, needle =>
    match hay with
    | [] => needle.isEmpty
    | _ :: rest => isPrefixL needle hay || containsL rest needle

/-- Python `needle in hay` substring membership. -/
def pyContains (hay needle : String) : Bool := containsL hay.data needle.data

/-- Python `str.lower()` (ASCII letters; other characters unchanged). -/
def pyLower (s : String) : String := ⟨s.data.map Char.toLower⟩

/-- Fuel-indexed splitter; the fuel is the length of the remaining input, so the
zero-fuel fallback is unreachable for the arguments `pySplit` supplies. -/
def splitAux (sep : List Char) : Nat → List Char → List Char → List (List Char)
  | _, [], acc => [acc.reverse]
  | 0, hay, acc => [acc.reverse ++ hay]
  | f + 1, c :: cs, acc =>
    if isPrefixL sep (c :: cs) && !sep.isEmpty then
      acc.reverse :: splitAux sep f (List.drop (sep.length - 1) cs) []
    else
      splitAux sep f cs (c :: acc)

/-- Python `s.split(sep)` for a nonempty separator. -/
def pySplit (s sep : String) : List String :=
  (splitAux sep.data s.data.length s.data []).map (fun l => ⟨l⟩)

end PyStr

namespace AgentsWf

/-!
Embedding of `src/agents/agent/workflow_manager.py` (`create_workflow_graph`)
over the state of `src/agents/agent/state.py`.
-/

/-- Entry of `State.messages` (`src/agents/agent/state.py`): a `Message` pydantic
model with an agent name and a message; the `BaseMessage` payload is represented
by its `content` string. -/
structure Message where
  agent_name : String
  content : String
deriving Repr, DecidableEq

/-- The pydantic `State` of `src/agents/agent/state.py`, with the source's
defaults in `defaultState`.  `database_result` is `Option String`: `none` models
the field never having been assigned by `execute_sql` (the pydantic default
`""`), `some r` models the assignment `state.database_result = agent_response.get("result", "")`.
The `sentry_results`/`datadog_results`/`logger_summary`/`data_summary` fields are
never read or written by any workflow node and are omitted. -/
structure WState where
  query : String
  messages : List Message
  is_need_data : Bool
  sql_query : String
  generated_sql : String
  sql_confirmation_needed : Bool
  sql_confirmed : Bool
  sql_confirmation_response : String
  database_result : Option String
  is_need_code_review : Bool
  code_review_result : String
  final_result : String
  channel_id : String
  thread_ts : String
deriving Repr, DecidableEq

/-- The pydantic field defaults of `State` (`src/agents/agent/state.py`). -/
def defaultState : WState :=
  { query := ""
    messages := []
    is_need_data := false
    sql_query := ""
    generated_sql := ""
    sql_confirmation_needed := true
    sql_confirmed := false
    sql_confirmation_response := ""
    database_result := none
    is_need_code_review := false
    code_review_result := ""
    final_result := ""
    channel_id := ""
    thread_ts := "" }

/-- State construction of `AgentClient.run` (`src/agents/client/agent.py`):
`State(query=query)`, then `channel_id`/`thread_ts` are set only when truthy. -/
def initialState (query : String) (channel_id thread_ts : Option String) : WState :=
  let s0 := { defaultState with query := query }
  let s1 := match channel_id with
    | some c => if c = "" then s0 else { s0 with channel_id := c }
    | none => s0
  match thread_ts with
  | some t => if t = "" then s1 else { s1 with thread_ts := t }
  | none => s1

/-- Result dict of `UserProxyAgent.execute` as consumed by `analyze_query`:
`content`, `is_need_data`, `error_occurred`. -/
structure UPResponse where
  content : String
  is_need_data : Bool
  error_occurred : Bool
deriving Repr, DecidableEq

/-- Result dict of `DatabaseAgent.execute` as consumed by `execute_sql`:
`agent_response["response"]` and `agent_response.get("result", "")`. -/
structure ExecResponse where
  response : String
  result : String
deriving Repr, DecidableEq

/-- Opaque external capabilities of one workflow run.  `userProxy` is the
outcome of `UserProxyAgent().execute(state.query)` (`.error` = the call raised),
`genSql` the outcome of `DatabaseAgent().process_create_sql` (`""` models the
falsy results `None`/empty), `execSql` the outcome of `DatabaseAgent().execute`,
and `sendSlack` the outcome of `SlackAgent().send_message(channels, text, thread_ts)`
(the returned dict's `content`). -/
structure WCaps where
  userProxy : Except String UPResponse
  genSql : Except String String
  execSql : Except String ExecResponse
  sendSlack : List String → String → String → Except String String

/-- Node `analyze_query` of `create_workflow_graph`. -/
def analyze_query (caps : WCaps) (s : WState) : WState :=
  match caps.userProxy with
  | .ok r =>
    if r.error_occurred then
      { s with messages := s.messages ++ [⟨"error_handler", r.content⟩]
               is_need_data := r.is_need_data }
    else
      { s with messages := s.messages ++ [⟨"user_proxy", r.content⟩]
               is_need_data := r.is_need_data }
  | .error e =>
    { s with messages := s.messages ++ [⟨"error_handler", "クエリ分析中にエラーが発生しました: " ++ e⟩]
             is_need_data := false }

/-- Node `generate_sql` of `create_workflow_graph`. -/
def generate_sql (caps : WCaps) (s : WState) : WState :=
  match caps.genSql with
  | .ok g =>
    if g = "" then
      { s with messages := s.messages ++ [⟨"database_generator", "SQLクエリの生成に失敗しました。"⟩]
               sql_confirmation_needed := false }
    else
      { s with generated_sql := g
               messages := s.messages ++
                 [⟨"database_generator", "以下のSQLクエリを生成しました：\n\n```sql\n" ++ g ++ "\n```"⟩] }
  | .error e =>
    { s with messages := s.messages ++ [⟨"database_generator", "SQL生成中にエラーが発生しました: " ++ e⟩]
             sql_confirmation_needed := false }

/-- Confirmation prompt built by `confirm_sql` (an f-string in the source). -/
def confirmationMessage (sql : String) : String :=
  "\n生成されたSQLクエリを確認してください：\n\n```sql\n" ++ sql ++
  "\n```\n\nこのSQLクエリを実行してもよろしいですか？\n- 承認する場合：「承認」または「OK」と入力\n- 修正が必要な場合：「修正」と修正内容を入力\n- 拒否する場合：「拒否」または「NG」と入力\n"

/-- Node `confirm_sql` of `create_workflow_graph` (auto-approval stub). -/
def confirm_sql (s : WState) : WState :=
  if s.generated_sql = "" then
    { s with sql_confirmed := false }
  else
    { s with
        messages := s.messages ++ [⟨"sql_confirmer", confirmationMessage s.generated_sql⟩]
        sql_confirmed := true
        sql_confirmation_response := "自動承認（仮実装）" }

/-- Node `execute_sql` of `create_workflow_graph`. -/
def execute_sql (caps : WCaps) (s : WState) : WState :=
  if !s.sql_confirmed then
    { s with messages := s.messages ++
        [⟨"database_executor", "SQLクエリが確認されていないため、実行をスキップします。"⟩] }
  else if s.generated_sql = "" then s
  else
    let s1 := { s with sql_query := s.generated_sql }
    match caps.execSql with
    | .ok r =>
      { s1 with messages := s1.messages ++ [⟨"database_executor", r.response⟩]
                database_result := some r.result }
    | .error e =>
      { s1 with messages := s1.messages ++
          [⟨"database_executor", "SQL実行中にエラーが発生しました: " ++ e⟩] }

/-- Node `review_github_code` of `create_workflow_graph`. -/
def review_github_code (s : WState) : WState :=
  { s with code_review_result := "テストコードレビュー結果" }

/-- Arguments of one `slack_agent.send_message(channels, text, thread_ts)` call. -/
structure SlackCall where
  channels : List String
  text : String
  thread_ts : String
deriving Repr, DecidableEq

/-- Node `slack_response` of `create_workflow_graph`.  Besides the updated state
it reports the single `send_message` invocation the node performs. -/
def slack_response (caps : WCaps) (s : WState) : WState × List SlackCall :=
  let channel_id := if s.channel_id = "" then "C062T1JP41M" else s.channel_id
  let thread_ts := if s.thread_ts = "" then "" else s.thread_ts
  let last_message_content :=
    match s.messages.getLast? with
    | some m => m.content
    | none => "処理が完了しました。"
  let call : SlackCall := ⟨[channel_id], last_message_content, thread_ts⟩
  match caps.sendSlack [channel_id] last_message_content thread_ts with
  | .ok content =>
    ({ s with messages := s.messages ++ [⟨"slack_response", content⟩] }, [call])
  | .error e =>
    ({ s with messages := s.messages ++ [⟨"slack_error", "Slack送信エラー: " ++ e⟩] }, [call])

/-- Nodes of the compiled graph, plus the virtual `START` node and `END`
(`done`). -/
inductive WNode where
  | start
  | analyze_query
  | generate_sql
  | confirm_sql
  | execute_sql
  | review_github_code
  | slack_response
  | done
deriving DecidableEq, Repr

/-- Runs the body of one node (the virtual `start`/`done` nodes run nothing). -/
def stepNode (caps : WCaps) (n : WNode) (s : WState) : WState × List SlackCall :=
  match n with
  | .start => (s, [])
  | .analyze_query => (analyze_query caps s, [])
  | .generate_sql => (generate_sql caps s, [])
  | .confirm_sql => (confirm_sql s, [])
  | .execute_sql => (execute_sql caps s, [])
  | .review_github_code => (review_github_code s, [])
  | .slack_response => slack_response caps s
  | .done => (s, [])

/-- Edge map of the compiled graph: the `add_edge`/`add_conditional_edges`
calls of `create_workflow_graph`, each condition evaluated on the state the
node just returned. -/
def nextNode (n : WNode) (s : WState) : WNode :=
  match n with
  | .start => .analyze_query
  | .analyze_query => if s.is_need_data then .generate_sql else .slack_response
  | .generate_sql =>
    if s.sql_confirmation_needed && !(s.generated_sql = "") then .confirm_sql
    else .slack_response
  | .confirm_sql => if s.sql_confirmed then .execute_sql else .slack_response
  | .execute_sql => if s.is_need_code_review then .review_github_code else .slack_response
  | .review_github_code => .slack_response
  | .slack_response => .done
  | .done => .done

/-- Outcome of a run: final state, visited nodes in order (ending with `done`
when the run terminated), and all Slack send invocations in order. -/
structure RunResult where
  state : WState
  visited : List WNode
  calls : List SlackCall
deriving Repr

/-- Fuel-indexed execution of the compiled graph from a node. -/
def runFrom (caps : WCaps) : Nat → WNode → WState → RunResult
  | _, .done, s => ⟨s, [.done], []⟩
  | 0, n, s => ⟨s, [n], []⟩
  | f + 1, n, s =>
    let p := stepNode caps n s
    let r := runFrom caps f (nextNode n p.1) p.1
    ⟨r.state, n :: r.visited, p.2 ++ r.calls⟩

/-- One full run of the compiled graph; fuel 8 covers the longest path
`start, analyze_query, generate_sql, confirm_sql, execute_sql,
review_github_code, slack_response, done`. -/
def runWorkflow (caps : WCaps) (s : WState) : RunResult :=
  runFrom caps 8 .start s

end AgentsWf

namespace SlackFmt

/-!
Embedding of `SlackResponseAgent._summarize_content` and `_format_response`
(`src/ai_agent_v2/mcp-client/agents/slack_agent.py`).  The summarization LLM
call is an oracle string passed in as `llm_summary`.
-/

/-- Marker keywords scanned for by `_summarize_content`. -/
def markerKeywords : List String :=
  ["問題分析", "Notionタスク", "URL:", "修正手順", "データベース", "結果", "結論", "まとめ"]

/-- Non-LLM extraction path of `_summarize_content`: first paragraph plus up to
three paragraphs containing a marker keyword, joined by blank lines. -/
def extract_summary (content : String) : String :=
  let paragraphs := PyStr.pySplit content "\n\n"
  let summary_parts := [paragraphs.headD ""]
  let important_sections :=
    paragraphs.filter (fun para => markerKeywords.any (fun keyword => PyStr.pyContains para keyword))
  let summary_parts := summary_parts ++ important_sections.take 3
  String.intercalate "\n\n" summary_parts

/-- Method `_summarize_content(content, max_length)`; `llm_summary` is the
`response.content` of the last-resort summarization call. -/
def summarize_content (llm_summary : String) (content : String) (max_length : Nat) : String :=
  if content.length ≤ max_length then content
  else
    let summarized_content := extract_summary content
    if summarized_content.length > max_length then
      let summarized_content := llm_summary
      if summarized_content.length > max_length then
        summarized_content.take (max_length - 100) ++
          "\n\n...(省略されました。全" ++ toString content.length ++ "文字)"
      else summarized_content
    else summarized_content

end SlackFmt

namespace V2Graph

/-!
Embedding of `src/ai_agent_v2/mcp-client/core/graph.py` and the node agents it
wires together.  Each agent's external interactions (MCP tools and LLM calls)
are collapsed into an oracle describing their outcome; the branching and the
state updates each `process` performs are translated verbatim.
-/

/-- One entry of `github_result["code_analyses"]`. -/
structure CodeAnalysis where
  file : String
  repo : String
  analysis : String
deriving Repr, DecidableEq

/-- Value stored in `GraphState.github_result`: either the result dict built by
`GitHubResearchAgent.process` or its `{"error": ...}` dict. -/
inductive GithubResult where
  | ok (search_terms : List String) (raw_info : List String)
       (code_analyses : List CodeAnalysis) (summary : String)
  | err (e : String)
deriving Repr, DecidableEq

/-- Value stored in `GraphState.notion_result`: the result dict built by
`NotionTaskAgent.process` or one of its `{"error": ...}` dicts. -/
inductive NotionResult where
  | ok (task_title : String) (database_id : String) (page_url : String)
  | err (e : String)
deriving Repr, DecidableEq

/-- Value stored in `GraphState.db_result` by `DBQueryAgent.process`:
the formatted error dict, the formatted success dict, or the dict built by the
outer `except` clause. -/
inductive DbResult where
  | fmtErr (error_message explanation : String)
  | fmtOk (sql_query explanation : String)
  | caught (e : String)
deriving Repr, DecidableEq

/-- The `GraphState` TypedDict of `core/graph.py`.  `Option` marks the fields
initialised to `None` by `process_query`; `messages` is declared but never
written by any node. -/
structure GState where
  query : String
  query_type : String
  user_id : Option String
  thread_ts : Option String
  db_result : Option DbResult
  github_result : Option GithubResult
  notion_result : Option NotionResult
  response : Option String
  messages : List String
deriving Repr, DecidableEq

/-- Initial state assembled by `GraphManager.process_query`. -/
def initialGState (query : String) (user_id thread_ts : Option String) : GState :=
  { query := query
    query_type := ""
    user_id := user_id
    thread_ts := thread_ts
    db_result := none
    github_result := none
    notion_result := none
    response := none
    messages := [] }

/-- Routing function `determine_query_type` of `core/graph.py`.  Python's
`not state.get(...)` truthiness on the two result dicts is `Option.isNone`
(`process_query` initialises them to `None`). -/
def determine_query_type (s : GState) : String :=
  if s.query_type = "general" then "slack_response"
  else if s.query_type = "db_query" then "db_query"
  else if s.query_type = "code_issue" then "github_research"
  else if s.query_type = "task_creation" then
    if s.github_result.isNone then "github_research"
    else if s.notion_result.isNone then "notion_task"
    else "slack_response"
  else "slack_response"

/-- Routing function `determine_next_after_github` of `core/graph.py`. -/
def determine_next_after_github (s : GState) : String :=
  if s.query_type = "task_creation" then "notion_task" else "slack_response"

/-- Routing function `determine_next_after_db` of `core/graph.py`. -/
def determine_next_after_db (_ : GState) : String := "slack_response"

/-- Routing function `determine_next_after_notion` of `core/graph.py`. -/
def determine_next_after_notion (_ : GState) : String := "slack_response"

/-- Keyword classification inside `_create_controller_agent`, applied to the
lower-cased controller LLM response text. -/
def controllerClassify (response_text : String) : String :=
  let t := PyStr.pyLower response_text
  if PyStr.pyContains t "データベース" || PyStr.pyContains t "sql" || PyStr.pyContains t "クエリ" then
    "db_query"
  else if PyStr.pyContains t "github" || PyStr.pyContains t "コード" || PyStr.pyContains t "バグ" then
    if PyStr.pyContains t "タスク" || PyStr.pyContains t "notion" then "task_creation"
    else "code_issue"
  else "general"

/-- Node body of the controller agent: updates `query_type` from the LLM
response text (an oracle here). -/
def controller_process (response_text : String) (s : GState) : GState :=
  { s with query_type := controllerClassify response_text }

/-- Outcome of `nl_query_processor.process_query` plus the follow-up LLM call
inside `DBQueryAgent.process`, as far as the returned state update depends on
them. -/
inductive DbOutcome where
  | errorRes (error_message : String) (error_explanation : String)
  | okRes (sql_query : String) (explanation : String)
deriving Repr, DecidableEq

/-- Node body of `DBQueryAgent.process`; `.error` is an exception caught by its
outer `except`. -/
def db_process (o : Except String DbOutcome) (s : GState) : GState :=
  match o with
  | .error e =>
    { s with db_result := some (.caught e)
             response := some ("データベースクエリの処理中にエラーが発生しました: " ++ e) }
  | .ok (.errorRes msg expl) =>
    { s with db_result := some (.fmtErr msg expl), response := some expl }
  | .ok (.okRes q expl) =>
    { s with db_result := some (.fmtOk q expl), response := some expl }

/-- Signal terms of the `needs_task` evaluation in
`GitHubResearchAgent.process`. -/
def signalTerms : List String :=
  ["修正", "対応", "改善", "必要", "should", "must", "fix", "improve"]

/-- The `needs_task` expression of `GitHubResearchAgent.process`: the query was
already classified `task_creation`, or some code analysis mentions `問題` and
the LLM summary contains a signal term. -/
def githubNeedsTask (query_type : String) (code_analyses : List CodeAnalysis)
    (analysis_text : String) : Bool :=
  query_type = "task_creation" ||
  (code_analyses.any (fun a => PyStr.pyContains a.analysis "問題") &&
   signalTerms.any (fun term => PyStr.pyContains (PyStr.pyLower analysis_text) term))

/-- Data produced by the tool/LLM interactions of `GitHubResearchAgent.process`
before it assembles its state update. -/
structure GithubOutcome where
  search_terms : List String
  raw_info : List String
  code_analyses : List CodeAnalysis
  analysis_text : String
deriving Repr, DecidableEq

/-- Node body of `GitHubResearchAgent.process`; `.error` is an exception caught
by its outer `except`. -/
def github_process (o : Except String GithubOutcome) (s : GState) : GState :=
  match o with
  | .error e =>
    { s with github_result := some (.err e)
             response := some ("GitHub情報の取得・分析中にエラーが発生しました: " ++ e) }
  | .ok r =>
    let needs_task := githubNeedsTask s.query_type r.code_analyses r.analysis_text
    let s1 := { s with
      github_result := some (.ok r.search_terms r.raw_info r.code_analyses r.analysis_text)
      response := some r.analysis_text }
    if needs_task && !(s.query_type = "task_creation") then
      { s1 with query_type := "task_creation" }
    else s1

/-- Task content assembled by `NotionTaskAgent._generate_task_content` (title,
description, priority, due date, file paths, issue bullet points); its LLM and
regex work is abstracted into the oracle value. -/
structure TaskContent where
  title : String
  description : String
  priority : String
  due_date : String
  file_paths : List String
  issues : List String
deriving Repr, DecidableEq

/-- Outcomes of the external interactions of `NotionTaskAgent.process`, in the
order the method performs them: whether a tool manager was injected, the tool
listing (`.error` = the call raised), the result of `_find_database_id` (that
helper catches its own exceptions and returns `None` on any failure), the
outcome of `_generate_task_content`, and the outcome of the
`notion_create_page` tool call — `.ok (some url)` when a page URL could be
parsed out of the tool result, `.ok none` when the result could not be parsed
(including a `None`/url-less result, which yields the placeholder
`URL取得できませんでした`), `.error` when the call raised. -/
structure NotionOracle where
  has_tool_manager : Bool
  list_tools : Except String (List String)
  database_id : Option String
  task_content : Except String TaskContent
  create_result : Except String (Option String)
deriving Repr

/-- Node body of `NotionTaskAgent.process`.  Every raised exception inside the
method body is caught by its outer `except`, which stores the error in
`notion_result` and an explanatory `response`. -/
def notion_process (o : NotionOracle) (s : GState) : GState :=
  if !o.has_tool_manager then
    { s with notion_result := some (.err "ToolManagerが初期化されていません")
             response := some "Notionタスクの作成中にエラーが発生しました: ToolManagerが初期化されていません" }
  else if s.github_result.isNone then
    { s with notion_result := some (.err "GitHubリサーチ結果がないため、タスクを作成できません")
             response := some "GitHubリサーチ結果がないため、Notionタスクを作成できませんでした。" }
  else
    match o.list_tools with
    | .error e =>
      { s with notion_result := some (.err e)
               response := some ("Notionタスクの作成中にエラーが発生しました: " ++ e) }
    | .ok tool_names =>
      if !(tool_names.contains "notion_create_page") then
        { s with notion_result := some (.err "Notionページ作成ツールが利用できません")
                 response := some "Notionページ作成ツールが利用できないため、タスクを作成できませんでした。" }
      else
        match o.database_id with
        | none =>
          { s with notion_result := some (.err "タスク用のNotionデータベースが見つかりません")
                   response := some "タスク用のNotionデータベースが見つからないため、タスクを作成できませんでした。" }
        | some database_id =>
          match o.task_content with
          | .error e =>
            { s with notion_result := some (.err e)
                     response := some ("Notionタスクの作成中にエラーが発生しました: " ++ e) }
          | .ok task_content =>
            match o.create_result with
            | .error e =>
              { s with notion_result := some (.err e)
                       response := some ("Notionタスクの作成中にエラーが発生しました: " ++ e) }
            | .ok parsed_url =>
              let page_url := parsed_url.getD "URL取得できませんでした"
              { s with
                  notion_result := some (.ok task_content.title database_id page_url)
                  response := some ("Notionタスク「" ++ task_content.title ++ "」が作成されました。\nURL: " ++ page_url) }

/-- Outcomes of the external interactions of `SlackResponseAgent.process`:
the LLM reply `_format_response` generates when the state has no `response`
yet, the last-resort summarization text of `_summarize_content`, and whether
some call in the method raised (caught by its outer `except`). -/
structure SlackOracle where
  format_llm : String
  summary_llm : String
  raised : Option String
deriving Repr, DecidableEq

/-- Method `SlackResponseAgent._format_response`: reuses a truthy existing
`response`, otherwise asks the LLM (oracle). -/
def format_response (o : SlackOracle) (s : GState) : String :=
  match s.response with
  | some r => if r = "" then o.format_llm else r
  | none => o.format_llm

/-- Node body of `SlackResponseAgent.process`; the posting branch only talks to
external tools and updates no state, so the state update is the formatted,
possibly summarized response. -/
def slack_process (o : SlackOracle) (s : GState) : GState :=
  match o.raised with
  | some e => { s with response := some ("応答の処理中にエラーが発生しました: " ++ e) }
  | none =>
    let formatted_response := format_response o s
    let final_response := SlackFmt.summarize_content o.summary_llm formatted_response 2000
    { s with response := some final_response }

/-- Oracles of one full run of the v2 graph. -/
structure GCaps where
  controllerText : String
  dbOutcome : Except String DbOutcome
  githubOutcome : Except String GithubOutcome
  notionOracle : NotionOracle
  slackOracle : SlackOracle
deriving Repr

/-- Nodes of the v2 graph plus the `END` marker (`done`). -/
inductive GNode where
  | controller
  | db_query
  | github_research
  | notion_task
  | slack_response
  | done
deriving DecidableEq, Repr

/-- Runs the body of one v2 node. -/
def stepG (caps : GCaps) (n : GNode) (s : GState) : GState :=
  match n with
  | .controller => controller_process caps.controllerText s
  | .db_query => db_process caps.dbOutcome s
  | .github_research => github_process caps.githubOutcome s
  | .notion_task => notion_process caps.notionOracle s
  | .slack_response => slack_process caps.slackOracle s
  | .done => s

/-- Label-to-node mapping of the conditional-edge dictionaries in
`build_graph`. -/
def nodeOfLabel (l : String) : GNode :=
  if l = "db_query" then .db_query
  else if l = "github_research" then .github_research
  else if l = "notion_task" then .notion_task
  else .slack_response

/-- Edge map of the v2 graph: the `add_conditional_edges`/`add_edge` calls of
`GraphManager.build_graph`, each routing function evaluated on the state the
node just returned. -/
def nextG (n : GNode) (s : GState) : GNode :=
  match n with
  | .controller => nodeOfLabel (determine_query_type s)
  | .db_query => nodeOfLabel (determine_next_after_db s)
  | .github_research => nodeOfLabel (determine_next_after_github s)
  | .notion_task => nodeOfLabel (determine_next_after_notion s)
  | .slack_response => .done
  | .done => .done

/-- Fuel-indexed execution of the v2 graph from a node. -/
def runGFrom (caps : GCaps) : Nat → GNode → GState → GState × List GNode
  | _, .done, s => (s, [.done])
  | 0, n, s => (s, [n])
  | f + 1, n, s =>
    let s1 := stepG caps n s
    let r := runGFrom caps f (nextG n s1) s1
    (r.1, n :: r.2)

/-- One full run of the v2 graph from the controller (the entry node
`process_query` relies on); fuel 6 covers the longest path
`controller, github_research, notion_task, slack_response, done`. -/
def runG (caps : GCaps) (s : GState) : GState × List GNode :=
  runGFrom caps 6 .controller s

end V2Graph

namespace UserProxy

/-!
Embedding of `UserProxyAgent.execute` (`src/agents/agent/user_proxy.py`) on top
of `OpenAIModelHandler.invoke_llm` (`src/agents/models/open_ai.py`), and of
`QueryRouter` (`src/ai_agent_v2/langchain_mcp/core/query_router.py`).
-/

/-- Dict returned by `OpenAIModelHandler.invoke_llm`: the success shape or the
failure shape with its `error_type` (one of `timeout`, `quota_exceeded`,
`api_connection_error`, `api_status_error`, `unknown_model_error`) and the
stringified original error.  `invoke_llm` catches every exception of the LLM
call, so it always returns one of these. -/
inductive LLMResult where
  | success (content : String)
  | failure (error_type : String) (original_error : String)
deriving Repr, DecidableEq

/-- Lookup into `ERROR_MESSAGE_JA` with the dict's `.get` fallback to the
`unknown_model_error` entry, with `{model_name}` already substituted the way
`str.format` does. -/
def errorMessageJa (error_type : String) (model_name : String) : String :=
  if error_type = "timeout" then
    "AI (" ++ model_name ++ ") への接続がタイムアウトしました。しばらくしてからもう一度お試しください。"
  else if error_type = "api_error" then
    "AI (" ++ model_name ++ ") との通信中に一般的なエラーが発生しました。しばらくしてからもう一度お試しください。"
  else if error_type = "api_connection_error" then
    "AI (" ++ model_name ++ ") との接続に失敗しました。ネットワーク状態などを確認してください。"
  else if error_type = "api_status_error" then
    "AI (" ++ model_name ++ ") が内部エラーまたは不正なリクエストとして応答しました。しばらくしてからもう一度お試しください。"
  else if error_type = "quota_exceeded" then
    "AI (" ++ model_name ++ ") の利用上限に達しました。管理者にお問い合わせください。"
  else if error_type = "empty_response" then
    "AI (" ++ model_name ++ ") からの応答がありませんでした。もう一度お試しいただくか、管理者にお問い合わせください。"
  else if error_type = "unknown_proxy_error" then
    "システム処理中に予期せぬエラーが発生しました。管理者にお問い合わせください。"
  else
    "AI (" ++ model_name ++ ") の処理中に予期せぬモデル固有のエラーが発生しました。"

/-- Full result dict of `UserProxyAgent.execute` (`content`, `is_need_data`,
`error_occurred`, optional `error_type`, `model_name`). -/
structure ExecuteResult where
  content : String
  is_need_data : Bool
  error_occurred : Bool
  error_type : Option String
  model_name : String
deriving Repr, DecidableEq

/-- Method `UserProxyAgent.execute` for the OpenAI handler (`MODEL_NAME =
"OpenAI"`).  The argument is the outcome of `invoke_llm`; `.error` models an
unexpected exception inside the method's `try` block, handled by its final
`except` (the `unknown_proxy_error` result). -/
def execute (llm : Except String LLMResult) : ExecuteResult :=
  match llm with
  | .error _ =>
    { content := errorMessageJa "unknown_proxy_error" "OpenAI"
      is_need_data := false
      error_occurred := true
      error_type := some "unknown_proxy_error"
      model_name := "OpenAI" }
  | .ok (.failure error_type _) =>
    { content := errorMessageJa error_type "OpenAI"
      is_need_data := false
      error_occurred := true
      error_type := some error_type
      model_name := "OpenAI" }
  | .ok (.success content) =>
    if content = "" then
      { content := errorMessageJa "empty_response" "OpenAI"
        is_need_data := false
        error_occurred := true
        error_type := some "empty_response"
        model_name := "OpenAI" }
    else
      { content := content
        is_need_data := PyStr.pyContains content "データベース" || PyStr.pyContains content "ログ"
        error_occurred := false
        error_type := none
        model_name := "OpenAI" }

end UserProxy

namespace QueryRouter

/-!
Embedding of `QueryRouter` (`src/ai_agent_v2/langchain_mcp/core/query_router.py`).
-/

/-- Boolean/route part of the analysis dict built by
`QueryRouter._parse_analysis` (the `parameters` sub-dict carries no logic and
is omitted). -/
structure Analysis where
  agent_type : String
  action : String
  need_db_search : Bool
  need_code_review : Bool
  create_task : Bool
deriving Repr, DecidableEq

/-- The initial `result` dict of `_parse_analysis`. -/
def defaultAnalysis : Analysis :=
  { agent_type := "default"
    action := "respond"
    need_db_search := false
    need_code_review := false
    create_task := false }

/-- Method `QueryRouter._parse_analysis`: keyword extraction over the
lower-cased analysis text. -/
def parse_analysis (analysis_text : String) : Analysis :=
  let lt := PyStr.pyLower analysis_text
  let has := fun k => PyStr.pyContains lt k
  let r := defaultAnalysis
  let r :=
    if has "github" || has "コード" || has "レビュー" then
      { r with agent_type := "github", need_code_review := true }
    else if has "データベース" || has "database" || has "db" || has "ログ" || has "検索" then
      { r with agent_type := "database", need_db_search := true }
    else if has "notion" || has "タスク" || has "作成" then
      { r with agent_type := "notion", create_task := true }
    else r
  let r :=
    if has "検索" || has "search" || has "query" then
      { r with action := "search", need_db_search := true }
    else if has "作成" || has "create" then { r with action := "create" }
    else if has "更新" || has "update" then { r with action := "update" }
    else r
  let r :=
    if has "エラー" || has "バグ" || has "不具合" then { r with need_code_review := true }
    else r
  if has "修正" || has "改善" || has "対応" then { r with create_task := true } else r

/-- Method `QueryRouter.analyze_query`.  The `self.model_handler.llm.ainvoke`
call sits OUTSIDE the method's `try` block (`AnthropicModelHandler` exposes the
raw `ChatAnthropic`), so an LLM failure propagates as `.error`; only the
`_parse_analysis` call is guarded, and in this embedding it is total, so a
returned text always parses. -/
def analyze_query (llm : Except String String) : Except String Analysis :=
  match llm with
  | .error e => .error e
  | .ok text => .ok (parse_analysis text)

end QueryRouter

namespace AgentsWf

/-- Goodness of a run suffix: it reaches `END`, visits the Slack response node
exactly once, and performs exactly one `send_message` invocation. -/
def goodRun (r : RunResult) : Prop :=
  r.visited.count .slack_response = 1 ∧ (∃ l, r.visited = l ++ [.done]) ∧ r.calls.length = 1

/-- Running from the terminal marker does nothing, whatever the fuel. -/
lemma runFrom_done (caps : WCaps) (f : Nat) (s : WState) :
    runFrom caps f .done s = ⟨s, [.done], []⟩ := by
  cases f <;> rfl

/-- The `slack_response` node performs exactly one send invocation. -/
lemma slack_calls_length (caps : WCaps) (s : WState) :
    ((slack_response caps s).2).length = 1 := by
  cases h : caps.sendSlack
      [if s.channel_id = "" then "C062T1JP41M" else s.channel_id]
      (match s.messages.getLast? with
        | some m => m.content
        | none => "処理が完了しました。")
      (if s.thread_ts = "" then "" else s.thread_ts) <;>
    simp [slack_response, h]

/-- Goodness propagates backwards over one non-response, non-terminal node. -/
lemma good_step (caps : WCaps) (f : Nat) (n : WNode) (s : WState)
    (hn : n ≠ WNode.slack_response) (hd : n ≠ WNode.done)
    (h : goodRun (runFrom caps f (nextNode n (stepNode caps n s).1) (stepNode caps n s).1)) :
    goodRun (runFrom caps (f + 1) n s) := by
  obtain ⟨h1, ⟨l, h2⟩, h3⟩ := h
  have hcalls : (stepNode caps n s).2 = [] := by
    cases n <;> simp_all [stepNode]
  have hrun : runFrom caps (f + 1) n s =
      ⟨(runFrom caps f (nextNode n (stepNode caps n s).1) (stepNode caps n s).1).state,
       n :: (runFrom caps f (nextNode n (stepNode caps n s).1) (stepNode caps n s).1).visited,
       (stepNode caps n s).2 ++
         (runFrom caps f (nextNode n (stepNode caps n s).1) (stepNode caps n s).1).calls⟩ := by
    cases n <;> first | rfl | exact absurd rfl hd
  rw [hrun]
  refine ⟨?_, ⟨n :: l, ?_⟩, ?_⟩
  · simpa [List.count_cons, hn] using h1
  · simp [h2]
  · simp [hcalls, h3]

/-- Goodness of any run starting at the Slack response node. -/
lemma good_slack (caps : WCaps) (f : Nat) (s : WState) :
    goodRun (runFrom caps (f + 1) .slack_response s) := by
  have hrun : runFrom caps (f + 1) .slack_response s =
      ⟨(runFrom caps f .done (slack_response caps s).1).state,
        .slack_response :: (runFrom caps f .done (slack_response caps s).1).visited,
        (slack_response caps s).2 ++
          (runFrom caps f .done (slack_response caps s).1).calls⟩ := rfl
  rw [hrun, runFrom_done]
  exact ⟨by simp [List.count_cons], ⟨[.slack_response], by simp⟩,
    by simp [slack_calls_length]⟩

/-- Goodness of any run starting at the code review node. -/
lemma good_review (caps : WCaps) (f : Nat) (s : WState) :
    goodRun (runFrom caps (f + 2) .review_github_code s) := by
  apply good_step caps (f + 1) _ _ (by decide) (by decide)
  exact good_slack caps f _

/-- Goodness of any run starting at the SQL execution node. -/
lemma good_execute (caps : WCaps) (f : Nat) (s : WState) :
    goodRun (runFrom caps (f + 3) .execute_sql s) := by
  apply good_step caps (f + 2) _ _ (by decide) (by decide)
  by_cases h : (stepNode caps .execute_sql s).1.is_need_code_review
  · have hn : nextNode .execute_sql (stepNode caps .execute_sql s).1 = .review_github_code := by
      simp [nextNode, h]
    rw [hn]
    exact good_review caps f _
  · have hn : nextNode .execute_sql (stepNode caps .execute_sql s).1 = .slack_response := by
      simp [nextNode, h]
    rw [hn]
    exact good_slack caps (f + 1) _

/-- Goodness of any run starting at the confirmation node. -/
lemma good_confirm (caps : WCaps) (f : Nat) (s : WState) :
    goodRun (runFrom caps (f + 4) .confirm_sql s) := by
  apply good_step caps (f + 3) _ _ (by decide) (by decide)
  by_cases h : (stepNode caps .confirm_sql s).1.sql_confirmed
  · have hn : nextNode .confirm_sql (stepNode caps .confirm_sql s).1 = .execute_sql := by
      simp [nextNode, h]
    rw [hn]
    exact good_execute caps f _
  · have hn : nextNode .confirm_sql (stepNode caps .confirm_sql s).1 = .slack_response := by
      simp [nextNode, h]
    rw [hn]
    exact good_slack caps (f + 2) _

/-- Goodness of any run starting at the SQL generation node. -/
lemma good_generate (caps : WCaps) (f : Nat) (s : WState) :
    goodRun (runFrom caps (f + 5) .generate_sql s) := by
  apply good_step caps (f + 4) _ _ (by decide) (by decide)
  by_cases h : ((stepNode caps .generate_sql s).1.sql_confirmation_needed &&
      !((stepNode caps .generate_sql s).1.generated_sql = "")) = true
  · have hn : nextNode .generate_sql (stepNode caps .generate_sql s).1 = .confirm_sql := by
      simp only [nextNode, h, if_true]
    rw [hn]
    exact good_confirm caps f _
  · have hn : nextNode .generate_sql (stepNode caps .generate_sql s).1 = .slack_response := by
      simp only [nextNode]
      rw [if_neg h]
    rw [hn]
    exact good_slack caps (f + 3) _

/-- Goodness of any run starting at the analysis node. -/
lemma good_analyze (caps : WCaps) (f : Nat) (s : WState) :
    goodRun (runFrom caps (f + 6) .analyze_query s) := by
  apply good_step caps (f + 5) _ _ (by decide) (by decide)
  by_cases h : (stepNode caps .analyze_query s).1.is_need_data
  · have hn : nextNode .analyze_query (stepNode caps .analyze_query s).1 = .generate_sql := by
      simp [nextNode, h]
    rw [hn]
    exact good_generate caps f _
  · have hn : nextNode .analyze_query (stepNode caps .analyze_query s).1 = .slack_response := by
      simp [nextNode, h]
    rw [hn]
    exact good_slack caps (f + 4) _

/-- Goodness of a full workflow run. -/
lemma good_start (caps : WCaps) (s : WState) : goodRun (runWorkflow caps s) := by
  unfold runWorkflow
  apply good_step caps 7 _ _ (by decide) (by decide)
  exact good_analyze caps 1 _

end AgentsWf

namespace V2Graph

/-- Goodness of a v2 run suffix: it reaches `END`, visits the Slack response
node exactly once, and ends with `response` populated. -/
def goodG (r : GState × List GNode) : Prop :=
  r.2.count GNode.slack_response = 1 ∧ (∃ l, r.2 = l ++ [GNode.done]) ∧
  r.1.response.isSome = true

/-- Running from the v2 terminal marker does nothing, whatever the fuel. -/
lemma runGFrom_done (caps : GCaps) (f : Nat) (s : GState) :
    runGFrom caps f .done s = (s, [.done]) := by
  cases f <;> rfl

/-- The v2 Slack node always populates `response`. -/
lemma slack_sets_response (o : SlackOracle) (s : GState) :
    (slack_process o s).response.isSome = true := by
  unfold slack_process
  cases o.raised <;> simp

/-- Goodness of any v2 run starting at the Slack response node. -/
lemma goodG_slack (caps : GCaps) (f : Nat) (s : GState) :
    goodG (runGFrom caps (f + 1) .slack_response s) := by
  have hrun : runGFrom caps (f + 1) .slack_response s =
      ((runGFrom caps f .done (slack_process caps.slackOracle s)).1,
        .slack_response :: (runGFrom caps f .done (slack_process caps.slackOracle s)).2) := rfl
  rw [hrun, runGFrom_done]
  exact ⟨by simp [List.count_cons], ⟨[.slack_response], by simp⟩,
    slack_sets_response _ _⟩

/-- Goodness propagates backwards over one non-response, non-terminal v2
node. -/
lemma goodG_step (caps : GCaps) (f : Nat) (n : GNode) (s : GState)
    (hn : n ≠ GNode.slack_response) (hd : n ≠ GNode.done)
    (h : goodG (runGFrom caps f (nextG n (stepG caps n s)) (stepG caps n s))) :
    goodG (runGFrom caps (f + 1) n s) := by
  obtain ⟨h1, ⟨l, h2⟩, h3⟩ := h
  have hrun : runGFrom caps (f + 1) n s =
      ((runGFrom caps f (nextG n (stepG caps n s)) (stepG caps n s)).1,
        n :: (runGFrom caps f (nextG n (stepG caps n s)) (stepG caps n s)).2) := by
    cases n <;> first | rfl | exact absurd rfl hd
  rw [hrun]
  exact ⟨by simpa [List.count_cons, hn] using h1, ⟨n :: l, by simp [h2]⟩, h3⟩

/-- Goodness of any v2 run starting at the Notion task node. -/
lemma goodG_notion (caps : GCaps) (f : Nat) (s : GState) :
    goodG (runGFrom caps (f + 2) .notion_task s) := by
  apply goodG_step caps (f + 1) _ _ (by decide) (by decide)
  exact goodG_slack caps f _

/-- Goodness of any v2 run starting at the DB query node. -/
lemma goodG_db (caps : GCaps) (f : Nat) (s : GState) :
    goodG (runGFrom caps (f + 2) .db_query s) := by
  apply goodG_step caps (f + 1) _ _ (by decide) (by decide)
  exact goodG_slack caps f _

/-- Goodness of any v2 run starting at the GitHub research node. -/
lemma goodG_github (caps : GCaps) (f : Nat) (s : GState) :
    goodG (runGFrom caps (f + 3) .github_research s) := by
  apply goodG_step caps (f + 2) _ _ (by decide) (by decide)
  by_cases h : (stepG caps .github_research s).query_type = "task_creation"
  · have hn : nextG .github_research (stepG caps .github_research s) = .notion_task := by
      simp [nextG, determine_next_after_github, h, nodeOfLabel]
    rw [hn]
    exact goodG_notion caps f _
  · have hn : nextG .github_research (stepG caps .github_research s) = .slack_response := by
      simp [nextG, determine_next_after_github, h, nodeOfLabel]
    rw [hn]
    exact goodG_slack caps (f + 1) _

/-- Goodness of any v2 run starting at the controller node. -/
lemma goodG_controller (caps : GCaps) (f : Nat) (s : GState) :
    goodG (runGFrom caps (f + 4) .controller s) := by
  apply goodG_step caps (f + 3) _ _ (by decide) (by decide)
  have hcases : determine_query_type (stepG caps .controller s) = "slack_response" ∨
      determine_query_type (stepG caps .controller s) = "db_query" ∨
      determine_query_type (stepG caps .controller s) = "github_research" ∨
      determine_query_type (stepG caps .controller s) = "notion_task" := by
    unfold determine_query_type
    repeat' split
    all_goals simp
  rcases hcases with h | h | h | h
  · have hn : nextG .controller (stepG caps .controller s) = .slack_response := by
      simp [nextG, h, nodeOfLabel]
    rw [hn]
    exact goodG_slack caps (f + 2) _
  · have hn : nextG .controller (stepG caps .controller s) = .db_query := by
      simp [nextG, h, nodeOfLabel]
    rw [hn]
    exact goodG_db caps (f + 1) _
  · have hn : nextG .controller (stepG caps .controller s) = .github_research := by
      simp [nextG, h, nodeOfLabel]
    rw [hn]
    exact goodG_github caps f _
  · have hn : nextG .controller (stepG caps .controller s) = .notion_task := by
      simp [nextG, h, nodeOfLabel]
    rw [hn]
    exact goodG_notion caps (f + 1) _

/-- Goodness of a full v2 run. -/
lemma goodG_run (caps : GCaps) (s : GState) : goodG (runG caps s) := by
  unfold runG
  exact goodG_controller caps 2 s

end V2Graph

/-- C1: every execution of either compiled workflow graph reaches `END` having
passed through the Slack response/formatting node exactly once — never zero
times and never twice — whatever the outcomes of the external capabilities
(including total failure of every downstream step); the `agents` workflow
performs exactly one `send_message` invocation per run, and the v2 graph ends
every run with its `response` field populated. -/
theorem claim1_single_reply :
    (∀ (caps : AgentsWf.WCaps) (s : AgentsWf.WState),
        AgentsWf.goodRun (AgentsWf.runWorkflow caps s)) ∧
    (∀ (caps : V2Graph.GCaps) (s : V2Graph.GState),
        V2Graph.goodG (V2Graph.runG caps s)) :=
  ⟨AgentsWf.good_start, V2Graph.goodG_run⟩

namespace AgentsWf

/-- One unfolding of `runFrom` at a non-terminal node. -/
lemma runFrom_cons (caps : WCaps) (f : Nat) (n : WNode) (s : WState)
    (hd : n ≠ WNode.done) :
    runFrom caps (f + 1) n s =
      ⟨(runFrom caps f (nextNode n (stepNode caps n s).1) (stepNode caps n s).1).state,
       n :: (runFrom caps f (nextNode n (stepNode caps n s).1) (stepNode caps n s).1).visited,
       (stepNode caps n s).2 ++
         (runFrom caps f (nextNode n (stepNode caps n s).1) (stepNode caps n s).1).calls⟩ := by
  cases n <;> first | rfl | exact absurd rfl hd

/-- The state update of `slack_response` leaves every non-transcript field
unchanged, and its single send invocation carries the channel fallback and the
last transcript entry (or the fixed completion text on an empty transcript). -/
lemma slack_response_spec (caps : WCaps) (s : WState) :
    ((slack_response caps s).1).sql_confirmed = s.sql_confirmed ∧
    ((slack_response caps s).1).sql_confirmation_response = s.sql_confirmation_response ∧
    ((slack_response caps s).1).database_result = s.database_result ∧
    ((slack_response caps s).1).generated_sql = s.generated_sql ∧
    (slack_response caps s).2 =
      [⟨[if s.channel_id = "" then "C062T1JP41M" else s.channel_id],
        (match s.messages.getLast? with
          | some m => m.content
          | none => "処理が完了しました。"),
        if s.thread_ts = "" then "" else s.thread_ts⟩] := by
  cases h : caps.sendSlack
      [if s.channel_id = "" then "C062T1JP41M" else s.channel_id]
      (match s.messages.getLast? with
        | some m => m.content
        | none => "処理が完了しました。")
      (if s.thread_ts = "" then "" else s.thread_ts) <;>
    simp [slack_response, h]

/-- The confirmation-gate invariant: a populated execution result implies an
approved confirmation. -/
def IGate (s : WState) : Prop := s.database_result.isSome = true → s.sql_confirmed = true

/-- The `analyze_query` node never writes `database_result`, `sql_confirmed`
or `generated_sql`. -/
lemma analyze_query_frame (caps : WCaps) (s : WState) :
    (analyze_query caps s).database_result = s.database_result ∧
    (analyze_query caps s).sql_confirmed = s.sql_confirmed ∧
    (analyze_query caps s).sql_confirmation_response = s.sql_confirmation_response ∧
    (analyze_query caps s).generated_sql = s.generated_sql ∧
    (analyze_query caps s).sql_confirmation_needed = s.sql_confirmation_needed ∧
    (analyze_query caps s).is_need_code_review = s.is_need_code_review := by
  unfold analyze_query
  cases caps.userProxy <;> simp [apply_ite]

/-- The `generate_sql` node never writes `database_result`, `sql_confirmed`,
`sql_confirmation_response` or `is_need_data`. -/
lemma generate_sql_frame (caps : WCaps) (s : WState) :
    (generate_sql caps s).database_result = s.database_result ∧
    (generate_sql caps s).sql_confirmed = s.sql_confirmed ∧
    (generate_sql caps s).sql_confirmation_response = s.sql_confirmation_response ∧
    (generate_sql caps s).is_need_code_review = s.is_need_code_review := by
  unfold generate_sql
  cases caps.genSql <;> simp [apply_ite]

/-- The `confirm_sql` node never writes `database_result`. -/
lemma confirm_sql_frame (s : WState) :
    (confirm_sql s).database_result = s.database_result ∧
    (confirm_sql s).is_need_code_review = s.is_need_code_review := by
  unfold confirm_sql
  split <;> simp

/-- The `execute_sql` node preserves the confirmation-gate invariant: it only
populates `database_result` after the `sql_confirmed` guard passed, and it
never changes `sql_confirmed`. -/
lemma IGate_execute (caps : WCaps) (s : WState) (h : IGate s) :
    IGate (execute_sql caps s) := by
  unfold IGate execute_sql at *
  by_cases hc : s.sql_confirmed = true
  · by_cases hg : s.generated_sql = ""
    · simp [hc, hg]
    · cases hE : caps.execSql <;> simp [hc, hg, hE]
  · simp only [Bool.not_eq_true] at hc
    simpa [hc] using h

/-- The review node preserves the confirmation-gate invariant. -/
lemma IGate_review (s : WState) (h : IGate s) : IGate (review_github_code s) := by
  simpa [IGate, review_github_code] using h

/-- The Slack node preserves the confirmation-gate invariant. -/
lemma IGate_slack (caps : WCaps) (s : WState) (h : IGate s) :
    IGate ((slack_response caps s).1) := by
  intro hsome
  obtain ⟨h1, _, h3, _⟩ := slack_response_spec caps s
  rw [h3] at hsome
  rw [h1]
  exact h hsome

/-- Gate invariant for runs starting at the Slack node. -/
lemma gate_slack (caps : WCaps) (f : Nat) (s : WState) (h : IGate s) :
    IGate ((runFrom caps (f + 1) .slack_response s).state) := by
  rw [runFrom_cons caps f _ s (by decide)]
  have hst : nextNode .slack_response (stepNode caps .slack_response s).1 = .done := rfl
  rw [hst, runFrom_done]
  exact IGate_slack caps s h

/-- Gate invariant for runs starting at the review node. -/
lemma gate_review (caps : WCaps) (f : Nat) (s : WState) (h : IGate s) :
    IGate ((runFrom caps (f + 2) .review_github_code s).state) := by
  rw [runFrom_cons caps (f + 1) _ s (by decide)]
  exact gate_slack caps f _ (IGate_review s h)

/-- Gate invariant for runs starting at the execution node. -/
lemma gate_execute (caps : WCaps) (f : Nat) (s : WState) (h : IGate s) :
    IGate ((runFrom caps (f + 3) .execute_sql s).state) := by
  rw [runFrom_cons caps (f + 2) _ s (by decide)]
  have h' : IGate (execute_sql caps s) := IGate_execute caps s h
  by_cases hr : (execute_sql caps s).is_need_code_review = true
  · have hn : nextNode .execute_sql (stepNode caps .execute_sql s).1 = .review_github_code := by
      simp [nextNode, stepNode, hr]
    rw [hn]
    exact gate_review caps f _ h'
  · have hn : nextNode .execute_sql (stepNode caps .execute_sql s).1 = .slack_response := by
      simp [nextNode, stepNode, hr]
    rw [hn]
    exact gate_slack caps (f + 1) _ h'

/-- Gate invariant for runs starting at the confirmation node with no
execution result yet. -/
lemma gate_confirm (caps : WCaps) (f : Nat) (s : WState)
    (hdb : s.database_result = none) :
    IGate ((runFrom caps (f + 4) .confirm_sql s).state) := by
  rw [runFrom_cons caps (f + 3) _ s (by decide)]
  have h' : IGate (confirm_sql s) := by
    intro hsome
    rw [(confirm_sql_frame s).1, hdb] at hsome
    simp at hsome
  by_cases hc : (confirm_sql s).sql_confirmed = true
  · have hn : nextNode .confirm_sql (stepNode caps .confirm_sql s).1 = .execute_sql := by
      simp [nextNode, stepNode, hc]
    rw [hn]
    exact gate_execute caps f _ h'
  · have hn : nextNode .confirm_sql (stepNode caps .confirm_sql s).1 = .slack_response := by
      simp [nextNode, stepNode, hc]
    rw [hn]
    exact gate_slack caps (f + 2) _ h'

/-- Gate invariant for runs starting at the generation node with no execution
result yet. -/
lemma gate_generate (caps : WCaps) (f : Nat) (s : WState)
    (hdb : s.database_result = none) :
    IGate ((runFrom caps (f + 5) .generate_sql s).state) := by
  rw [runFrom_cons caps (f + 4) _ s (by decide)]
  have hdb' : (generate_sql caps s).database_result = none := by
    rw [(generate_sql_frame caps s).1, hdb]
  by_cases hc : ((generate_sql caps s).sql_confirmation_needed &&
      !((generate_sql caps s).generated_sql = "")) = true
  · have hn : nextNode .generate_sql (stepNode caps .generate_sql s).1 = .confirm_sql := by
      simp only [nextNode, stepNode, hc, if_true]
    rw [hn]
    exact gate_confirm caps f _ hdb'
  · have hn : nextNode .generate_sql (stepNode caps .generate_sql s).1 = .slack_response := by
      simp only [nextNode, stepNode]
      rw [if_neg hc]
    rw [hn]
    refine gate_slack caps (f + 2) _ ?_
    intro hsome
    simp only [stepNode] at hsome
    rw [hdb'] at hsome
    simp at hsome

/-- Gate invariant for runs starting at the analysis node with no execution
result yet. -/
lemma gate_analyze (caps : WCaps) (f : Nat) (s : WState)
    (hdb : s.database_result = none) :
    IGate ((runFrom caps (f + 6) .analyze_query s).state) := by
  rw [runFrom_cons caps (f + 5) _ s (by decide)]
  have hdb' : (analyze_query caps s).database_result = none := by
    rw [(analyze_query_frame caps s).1, hdb]
  by_cases hc : (analyze_query caps s).is_need_data = true
  · have hn : nextNode .analyze_query (stepNode caps .analyze_query s).1 = .generate_sql := by
      simp [nextNode, stepNode, hc]
    rw [hn]
    exact gate_generate caps f _ hdb'
  · have hn : nextNode .analyze_query (stepNode caps .analyze_query s).1 = .slack_response := by
      simp [nextNode, stepNode, hc]
    rw [hn]
    refine gate_slack caps (f + 4) _ ?_
    intro hsome
    simp only [stepNode] at hsome
    rw [hdb'] at hsome
    simp at hsome

/-- Gate invariant for full runs from a state with no execution result. -/
lemma gate_start (caps : WCaps) (f : Nat) (s : WState)
    (hdb : s.database_result = none) :
    IGate ((runFrom caps (f + 7) .start s).state) := by
  rw [runFrom_cons caps (f + 6) _ s (by decide)]
  exact gate_analyze caps f s hdb

end AgentsWf

/-- C2: the execute step sits behind the confirmation gate.  The conditional
edge out of `confirm_sql` enters `execute_sql` only when `sql_confirmed` is
true, and on any full run of the workflow starting with an unpopulated
`database_result` (as every fresh request state is), a populated
`database_result` at the end implies `sql_confirmed = true` — `Approved` in
the spec's terms, `sql_confirmed` being the code's rendering of
`sql_confirmation == Approved`. -/
theorem claim2_confirmation_gate :
    (∀ s : AgentsWf.WState,
        AgentsWf.nextNode .confirm_sql s = .execute_sql → s.sql_confirmed = true) ∧
    (∀ (caps : AgentsWf.WCaps) (s : AgentsWf.WState),
        s.database_result = none →
        (AgentsWf.runWorkflow caps s).state.database_result.isSome = true →
        (AgentsWf.runWorkflow caps s).state.sql_confirmed = true) := by
  constructor
  · intro s h
    by_cases hc : s.sql_confirmed = true
    · exact hc
    · simp [AgentsWf.nextNode, hc] at h
  · intro caps s hdb
    exact AgentsWf.gate_start caps 1 s hdb

/-- Witness for C2: a run in which the generated SQL is auto-approved and
executed; the execution result is populated and the confirmation is indeed
approved. -/
theorem claim2_confirmation_gate_witness :
    (AgentsWf.runWorkflow
        ⟨Except.ok ⟨"データベースを確認します", true, false⟩, Except.ok "SELECT 1",
          Except.ok ⟨"2 rows", "r1, r2"⟩, fun _ _ _ => Except.ok "送信しました"⟩
        (AgentsWf.initialState "先週のユーザー数は？" none none)).state.database_result.isSome
      = true ∧
    (AgentsWf.runWorkflow
        ⟨Except.ok ⟨"データベースを確認します", true, false⟩, Except.ok "SELECT 1",
          Except.ok ⟨"2 rows", "r1, r2"⟩, fun _ _ _ => Except.ok "送信しました"⟩
        (AgentsWf.initialState "先週のユーザー数は？" none none)).state.sql_confirmed = true :=
  ⟨by decide, claim2_confirmation_gate.2 _ _ (by decide) (by decide)⟩

namespace AgentsWf

/-- Each node of the workflow only appends to the transcript. -/
lemma step_messages (caps : WCaps) (n : WNode) (s : WState) :
    s.messages <+: ((stepNode caps n s).1).messages := by
  cases n with
  | start => exact List.prefix_refl _
  | done => exact List.prefix_refl _
  | analyze_query =>
    simp only [stepNode, analyze_query]
    cases caps.userProxy with
    | ok r =>
      by_cases hb : r.error_occurred = true <;> simp [hb]
    | error e => simp
  | generate_sql =>
    simp only [stepNode, generate_sql]
    cases caps.genSql with
    | ok g =>
      by_cases hb : g = "" <;> simp [hb]
    | error e => simp
  | confirm_sql =>
    simp only [stepNode, confirm_sql]
    split <;> simp
  | execute_sql =>
    simp only [stepNode, execute_sql]
    by_cases hc : s.sql_confirmed = true
    · by_cases hg : s.generated_sql = ""
      · simp [hc, hg]
      · cases hE : caps.execSql <;> simp [hc, hg, hE]
    · simp only [Bool.not_eq_true] at hc
      simp [hc]
  | review_github_code =>
    simp [stepNode, review_github_code]
  | slack_response =>
    simp only [stepNode]
    cases h : caps.sendSlack
        [if s.channel_id = "" then "C062T1JP41M" else s.channel_id]
        (match s.messages.getLast? with
          | some m => m.content
          | none => "処理が完了しました。")
        (if s.thread_ts = "" then "" else s.thread_ts) <;>
      simp [slack_response, h]

/-- A whole run suffix only appends to the transcript. -/
lemma runFrom_messages (caps : WCaps) (f : Nat) (n : WNode) (s : WState) :
    s.messages <+: (runFrom caps f n s).state.messages := by
  induction f generalizing n s with
  | zero =>
    have h : (runFrom caps 0 n s).state = s := by cases n <;> rfl
    rw [h]
  | succ f ih =>
    by_cases hd : n = WNode.done
    · subst hd
      rw [runFrom_done]
    · rw [runFrom_cons caps f n s hd]
      exact (step_messages caps n s).trans (ih _ _)

end AgentsWf

/-- C9: the transcript is append-only.  Every node of the workflow graph maps
the `messages` list to itself with zero or more entries appended at the end
(so earlier entries are never removed, reordered or rewritten and insertion
order is preserved), and consequently every run suffix extends the transcript
it started from. -/
theorem claim9_transcript_append_only :
    ∀ (caps : AgentsWf.WCaps) (n : AgentsWf.WNode) (s : AgentsWf.WState),
      s.messages <+: ((AgentsWf.stepNode caps n s).1).messages ∧
      ∀ f : Nat, s.messages <+: (AgentsWf.runFrom caps f n s).state.messages :=
  fun caps n s =>
    ⟨AgentsWf.step_messages caps n s, fun f => AgentsWf.runFrom_messages caps f n s⟩

/-- C10: in the terminal reply step, the posted text is the content of the
last transcript entry, or the fixed completion message on an empty transcript,
and an empty `channel_id` falls back to the hard-coded default channel instead
of skipping the post. -/
theorem claim10_terminal_reply :
    ∀ (caps : AgentsWf.WCaps) (s : AgentsWf.WState),
      (s.messages = [] →
        ((AgentsWf.slack_response caps s).2).map AgentsWf.SlackCall.text =
          ["処理が完了しました。"]) ∧
      (∀ m, s.messages.getLast? = some m →
        ((AgentsWf.slack_response caps s).2).map AgentsWf.SlackCall.text = [m.content]) ∧
      (s.channel_id = "" →
        ((AgentsWf.slack_response caps s).2).map AgentsWf.SlackCall.channels =
          [["C062T1JP41M"]]) ∧
      (s.channel_id ≠ "" →
        ((AgentsWf.slack_response caps s).2).map AgentsWf.SlackCall.channels =
          [[s.channel_id]]) := by
  intro caps s
  have hspec := (AgentsWf.slack_response_spec caps s).2.2.2.2
  refine ⟨?_, ?_, ?_, ?_⟩
  · intro hm
    simp [hspec, hm]
  · intro m hm
    simp [hspec, hm]
  · intro hch
    simp [hspec, hch]
  · intro hch
    simp [hspec, hch]

/-- Witness for C10: with a one-entry transcript and an empty channel id, the
posted text is that entry's content and the post goes to the default
channel. -/
theorem claim10_terminal_reply_witness :
    ((AgentsWf.slack_response ⟨Except.ok ⟨"", false, false⟩, Except.ok "",
        Except.ok ⟨"", ""⟩, fun _ _ _ => Except.ok "送信しました"⟩
      { AgentsWf.defaultState with
          messages := [⟨"user_proxy", "こんにちは！"⟩] }).2).map AgentsWf.SlackCall.text =
      ["こんにちは！"] ∧
    ((AgentsWf.slack_response ⟨Except.ok ⟨"", false, false⟩, Except.ok "",
        Except.ok ⟨"", ""⟩, fun _ _ _ => Except.ok "送信しました"⟩
      { AgentsWf.defaultState with
          messages := [⟨"user_proxy", "こんにちは！"⟩] }).2).map AgentsWf.SlackCall.channels =
      [["C062T1JP41M"]] :=
  ⟨(claim10_terminal_reply _ _).2.1 ⟨"user_proxy", "こんにちは！"⟩ (by decide),
   (claim10_terminal_reply _ _).2.2.1 (by decide)⟩

namespace AgentsWf

/-- Field values of a freshly constructed request state. -/
lemma initialState_fields (q : String) (ch th : Option String) :
    (initialState q ch th).messages = [] ∧
    (initialState q ch th).generated_sql = "" ∧
    (initialState q ch th).sql_confirmation_needed = true ∧
    (initialState q ch th).sql_confirmed = false ∧
    (initialState q ch th).sql_confirmation_response = "" ∧
    (initialState q ch th).database_result = none ∧
    (initialState q ch th).is_need_code_review = false := by
  rcases ch with _ | c <;> rcases th with _ | t <;>
    simp [initialState, defaultState, apply_ite]

/-- A run reaching the Slack response node performs that node and stops. -/
lemma runFrom_slack_out (caps : WCaps) (f : Nat) (s : WState) (hf : f ≠ 0) :
    runFrom caps f .slack_response s =
      ⟨(slack_response caps s).1, [.slack_response, .done], (slack_response caps s).2⟩ := by
  cases f with
  | zero => exact absurd rfl hf
  | succ f =>
    rw [runFrom_cons caps f _ s (by decide)]
    have hn : nextNode .slack_response (stepNode caps .slack_response s).1 = .done := rfl
    rw [hn, runFrom_done]
    simp [stepNode]

end AgentsWf

/-- C5: when SQL generation fails (the falsy result `None`), the workflow goes
from the generation node directly to the Slack response node, skipping both
the confirmation and the execution node; the posted reply is the explicit
generation-failure message, and the confirmation state is untouched —
`sql_confirmed` stays false and no confirmation response is recorded, i.e. the
confirmation status remains `Pending`. -/
theorem AgentsWf.claim5_sqlgen_failure (caps : WCaps) (q : String)
    (ch th : Option String) (up : UPResponse)
    (hup : caps.userProxy = Except.ok up) (hdata : up.is_need_data = true)
    (hgen : caps.genSql = Except.ok "") :
    (runWorkflow caps (initialState q ch th)).visited =
      [.start, .analyze_query, .generate_sql, .slack_response, .done] ∧
    ((runWorkflow caps (initialState q ch th)).calls).map SlackCall.text =
      ["SQLクエリの生成に失敗しました。"] ∧
    (runWorkflow caps (initialState q ch th)).state.sql_confirmed = false ∧
    (runWorkflow caps (initialState q ch th)).state.sql_confirmation_response = "" := by
  obtain ⟨hmsg, hgsql, hneed, hconf, hresp, hdbn, hrev⟩ := initialState_fields q ch th
  have h1 : (analyze_query caps (initialState q ch th)).is_need_data = true := by
    simp [analyze_query, hup, apply_ite, hdata]
  have h2 : generate_sql caps (analyze_query caps (initialState q ch th)) =
      { analyze_query caps (initialState q ch th) with
          messages := (analyze_query caps (initialState q ch th)).messages ++
            [⟨"database_generator", "SQLクエリの生成に失敗しました。"⟩],
          sql_confirmation_needed := false } := by
    simp [generate_sql, hgen]
  have hcond : ((generate_sql caps (analyze_query caps (initialState q ch th))).sql_confirmation_needed &&
      !((generate_sql caps (analyze_query caps (initialState q ch th))).generated_sql = "")) = false := by
    rw [h2]
    simp
  have hrun : runWorkflow caps (initialState q ch th) =
      ⟨(slack_response caps (generate_sql caps (analyze_query caps (initialState q ch th)))).1,
       [.start, .analyze_query, .generate_sql, .slack_response, .done],
       (slack_response caps (generate_sql caps (analyze_query caps (initialState q ch th)))).2⟩ := by
    simp only [runWorkflow, runFrom, stepNode, nextNode, h1, hcond]
    simp
  refine ⟨by rw [hrun], ?_, ?_, ?_⟩
  · rw [hrun]
    have hcalls := (slack_response_spec caps
      (generate_sql caps (analyze_query caps (initialState q ch th)))).2.2.2.2
    have hlast : (generate_sql caps (analyze_query caps (initialState q ch th))).messages.getLast?
        = some ⟨"database_generator", "SQLクエリの生成に失敗しました。"⟩ := by
      rw [h2]
      simp
    simp [hcalls, hlast]
  · rw [hrun]
    rw [(slack_response_spec caps _).1, h2]
    show (analyze_query caps (initialState q ch th)).sql_confirmed = false
    rw [(analyze_query_frame caps _).2.1, hconf]
  · rw [hrun]
    rw [(slack_response_spec caps _).2.1, h2]
    show (analyze_query caps (initialState q ch th)).sql_confirmation_response = ""
    rw [(analyze_query_frame caps _).2.2.1, hresp]

/-- Witness for C5: a concrete request on the data path whose SQL generation
returns the falsy result. -/
theorem claim5_sqlgen_failure_witness :
    (AgentsWf.runWorkflow
        ⟨Except.ok ⟨"データベースを確認します", true, false⟩, Except.ok "",
          Except.ok ⟨"", ""⟩, fun _ _ _ => Except.ok "送信しました"⟩
        (AgentsWf.initialState "売上を教えて" (some "C123") none)).visited =
      [.start, .analyze_query, .generate_sql, .slack_response, .done] ∧
    ((AgentsWf.runWorkflow
        ⟨Except.ok ⟨"データベースを確認します", true, false⟩, Except.ok "",
          Except.ok ⟨"", ""⟩, fun _ _ _ => Except.ok "送信しました"⟩
        (AgentsWf.initialState "売上を教えて" (some "C123") none)).calls).map
        AgentsWf.SlackCall.text = ["SQLクエリの生成に失敗しました。"] :=
  ⟨(AgentsWf.claim5_sqlgen_failure _ "売上を教えて" (some "C123") none
      ⟨"データベースを確認します", true, false⟩ rfl rfl rfl).1,
   (AgentsWf.claim5_sqlgen_failure _ "売上を教えて" (some "C123") none
      ⟨"データベースを確認します", true, false⟩ rfl rfl rfl).2.1⟩

/-- Counterexample to C3: with the classifier reporting `needs_data_lookup =
false` and the code-review flag set, the claimed path `Classified → Researched
→ … → Formatting` does not happen — the workflow goes straight from the
analysis node to the Slack response node and the review node is never
visited. -/
theorem claim3_counterexample :
    ((AgentsWf.runWorkflow
        ⟨Except.ok ⟨"コードレビューが必要です", false, false⟩, Except.ok "SELECT 1",
          Except.ok ⟨"", ""⟩, fun _ _ _ => Except.ok "送信しました"⟩
        { AgentsWf.initialState "ログイン処理のバグを調査して" none none with
            is_need_code_review := true }).visited =
      [.start, .analyze_query, .slack_response, .done]) ∧
    (((AgentsWf.runWorkflow
        ⟨Except.ok ⟨"コードレビューが必要です", false, false⟩, Except.ok "SELECT 1",
          Except.ok ⟨"", ""⟩, fun _ _ _ => Except.ok "送信しました"⟩
        { AgentsWf.initialState "ログイン処理のバグを調査して" none none with
            is_need_code_review := true }).visited).count .review_github_code = 0) := by
  decide

/-- C3 as amended: in the boolean-flag orchestrator the route depends only on
`is_need_data` (the classifier's data flag) and `is_need_code_review`; when
the data flag is false the run goes `Start → Classified → Formatting →
Terminal` regardless of the review flag (code review is reachable only from
the data path, after execution), when the data flag is true the run goes
through generation, confirmation (auto-approved) and execution, visiting the
review node exactly when the review flag is true; `needs_task_creation` has no
node in this workflow, so the 8 flag combinations collapse onto these 4 paths,
each reaching the terminal exactly once.  In the v2 enum router, by contrast,
a `code_issue` classification does route to research first. -/
theorem AgentsWf.claim3_routing_table (caps : WCaps) (q : String) (d r : Bool)
    (up : UPResponse) (sql : String)
    (hup : caps.userProxy = Except.ok up) (hdata : up.is_need_data = d)
    (hgen : caps.genSql = Except.ok sql) (hsql : sql ≠ "") :
    ((runWorkflow caps { initialState q none none with is_need_code_review := r }).visited =
      if d then
        (if r then
          [.start, .analyze_query, .generate_sql, .confirm_sql, .execute_sql,
            .review_github_code, .slack_response, .done]
         else
          [.start, .analyze_query, .generate_sql, .confirm_sql, .execute_sql,
            .slack_response, .done])
      else [.start, .analyze_query, .slack_response, .done]) ∧
    (((runWorkflow caps { initialState q none none with is_need_code_review := r }).visited).count
        .done = 1) ∧
    (∀ s2 : V2Graph.GState, s2.query_type = "code_issue" →
      V2Graph.determine_query_type s2 = "github_research") := by
  have hvis : (runWorkflow caps
      { initialState q none none with is_need_code_review := r }).visited =
      if d then
        (if r then
          [WNode.start, .analyze_query, .generate_sql, .confirm_sql, .execute_sql,
            .review_github_code, .slack_response, .done]
         else
          [WNode.start, .analyze_query, .generate_sql, .confirm_sql, .execute_sql,
            .slack_response, .done])
      else [WNode.start, .analyze_query, .slack_response, .done] := by
    cases d <;> cases r <;>
      cases hb : up.error_occurred <;> cases hE : caps.execSql <;>
        simp [runWorkflow, runFrom, stepNode, nextNode, runFrom_slack_out,
          analyze_query, generate_sql, confirm_sql, execute_sql, review_github_code,
          hup, hgen, hdata, hsql, hE, hb, initialState, defaultState]
  refine ⟨hvis, ?_, ?_⟩
  · rw [hvis]
    cases d <;> cases r <;> rfl
  · intro s2 h
    simp [V2Graph.determine_query_type, h]

/-- Witness for C3 as amended: a data-plus-review request walks the full
path. -/
theorem claim3_routing_table_witness :
    (AgentsWf.runWorkflow
        ⟨Except.ok ⟨"データベースとログを確認", true, false⟩, Except.ok "SELECT 1",
          Except.ok ⟨"結果", "rows"⟩, fun _ _ _ => Except.ok "送信しました"⟩
        { AgentsWf.initialState "調査して" none none with
            is_need_code_review := true }).visited =
      [.start, .analyze_query, .generate_sql, .confirm_sql, .execute_sql,
        .review_github_code, .slack_response, .done] := by
  have h := AgentsWf.claim3_routing_table
    ⟨Except.ok ⟨"データベースとログを確認", true, false⟩, Except.ok "SELECT 1",
      Except.ok ⟨"結果", "rows"⟩, fun _ _ _ => Except.ok "送信しました"⟩
    "調査して" true true ⟨"データベースとログを確認", true, false⟩ "SELECT 1"
    rfl rfl rfl (by decide)
  simpa using h.1

namespace QueryRouter

/-- Every keyword `_parse_analysis` tests for. -/
def routerKeywords : List String :=
  ["github", "コード", "レビュー", "データベース", "database", "db", "ログ", "検索",
   "notion", "タスク", "作成", "search", "query", "create", "更新", "update",
   "エラー", "バグ", "不具合", "修正", "改善", "対応"]

end QueryRouter

/-- Counterexample to C4: when the LLM capability fails, `QueryRouter.analyze_query`
does not return a default simple-reply route — the exception propagates to the
caller, because the `ainvoke` call sits outside the method's `try` block. -/
theorem claim4_counterexample :
    QueryRouter.analyze_query (Except.error "APITimeoutError: Request timed out") =
      Except.error "APITimeoutError: Request timed out" := rfl

/-- C4 as amended: `UserProxyAgent.execute` satisfies the claim in full — on
every LLM failure (error result or raised exception) it returns a well-formed
simple-reply analysis with the failure recorded, and text without the data
keywords yields the data flag false; `QueryRouter._parse_analysis` is total and
maps keyword-free (ambiguous) text to the all-false default route; but
`QueryRouter.analyze_query` propagates raw LLM-capability exceptions to its
caller — only the parse step is guarded. -/
theorem claim4_classifier_total :
    (∀ error_type detail,
      (UserProxy.execute (Except.ok (.failure error_type detail))).is_need_data = false ∧
      (UserProxy.execute (Except.ok (.failure error_type detail))).error_occurred = true ∧
      (UserProxy.execute (Except.ok (.failure error_type detail))).error_type =
        some error_type) ∧
    (∀ e, (UserProxy.execute (Except.error e)).is_need_data = false ∧
      (UserProxy.execute (Except.error e)).error_occurred = true) ∧
    (∀ content, PyStr.pyContains content "データベース" = false →
      PyStr.pyContains content "ログ" = false →
      (UserProxy.execute (Except.ok (.success content))).is_need_data = false) ∧
    (∀ t, (QueryRouter.routerKeywords.all
        fun k => !PyStr.pyContains (PyStr.pyLower t) k) = true →
      QueryRouter.parse_analysis t = QueryRouter.defaultAnalysis) ∧
    (∀ e, QueryRouter.analyze_query (Except.error e) = Except.error e) := by
  refine ⟨?_, ?_, ?_, ?_, ?_⟩
  · intro error_type detail
    exact ⟨rfl, rfl, rfl⟩
  · intro e
    exact ⟨rfl, rfl⟩
  · intro content h1 h2
    by_cases hc : content = ""
    · simp [UserProxy.execute, hc]
    · simp [UserProxy.execute, hc, h1, h2]
  · intro t h
    have hk : ∀ k ∈ QueryRouter.routerKeywords,
        PyStr.pyContains (PyStr.pyLower t) k = false := by
      intro k hkmem
      simpa using List.all_eq_true.mp h k hkmem
    have g1 := hk "github" (by simp [QueryRouter.routerKeywords])
    have g2 := hk "コード" (by simp [QueryRouter.routerKeywords])
    have g3 := hk "レビュー" (by simp [QueryRouter.routerKeywords])
    have g4 := hk "データベース" (by simp [QueryRouter.routerKeywords])
    have g5 := hk "database" (by simp [QueryRouter.routerKeywords])
    have g6 := hk "db" (by simp [QueryRouter.routerKeywords])
    have g7 := hk "ログ" (by simp [QueryRouter.routerKeywords])
    have g8 := hk "検索" (by simp [QueryRouter.routerKeywords])
    have g9 := hk "notion" (by simp [QueryRouter.routerKeywords])
    have g10 := hk "タスク" (by simp [QueryRouter.routerKeywords])
    have g11 := hk "作成" (by simp [QueryRouter.routerKeywords])
    have g12 := hk "search" (by simp [QueryRouter.routerKeywords])
    have g13 := hk "query" (by simp [QueryRouter.routerKeywords])
    have g14 := hk "create" (by simp [QueryRouter.routerKeywords])
    have g15 := hk "更新" (by simp [QueryRouter.routerKeywords])
    have g16 := hk "update" (by simp [QueryRouter.routerKeywords])
    have g17 := hk "エラー" (by simp [QueryRouter.routerKeywords])
    have g18 := hk "バグ" (by simp [QueryRouter.routerKeywords])
    have g19 := hk "不具合" (by simp [QueryRouter.routerKeywords])
    have g20 := hk "修正" (by simp [QueryRouter.routerKeywords])
    have g21 := hk "改善" (by simp [QueryRouter.routerKeywords])
    have g22 := hk "対応" (by simp [QueryRouter.routerKeywords])
    simp [QueryRouter.parse_analysis, g1, g2, g3, g4, g5, g6, g7, g8, g9, g10,
      g11, g12, g13, g14, g15, g16, g17, g18, g19, g20, g21, g22]
  · intro e
    rfl

/-- Witness for C4 as amended: a timeout result yields the simple-reply
default with the failure recorded, and a greeting with none of the router
keywords parses to the default route. -/
theorem claim4_classifier_total_witness :
    (UserProxy.execute (Except.ok (.failure "timeout" "Request timed out"))).is_need_data
      = false ∧
    (UserProxy.execute (Except.ok (.failure "timeout" "Request timed out"))).error_occurred
      = true ∧
    QueryRouter.parse_analysis "こんにちは" = QueryRouter.defaultAnalysis :=
  ⟨(claim4_classifier_total.1 "timeout" "Request timed out").1,
   (claim4_classifier_total.1 "timeout" "Request timed out").2.1,
   claim4_classifier_total.2.2.2.1 "こんにちは" (by decide)⟩

namespace V2Graph

/-- One unfolding of `runGFrom` at a non-terminal node. -/
lemma runGFrom_cons (caps : GCaps) (f : Nat) (n : GNode) (s : GState)
    (hd : n ≠ GNode.done) :
    runGFrom caps (f + 1) n s =
      ((runGFrom caps f (nextG n (stepG caps n s)) (stepG caps n s)).1,
        n :: (runGFrom caps f (nextG n (stepG caps n s)) (stepG caps n s)).2) := by
  cases n <;> first | rfl | exact absurd rfl hd

/-- A v2 run reaching the Slack response node performs it and stops. -/
lemma runGFrom_slack_out (caps : GCaps) (f : Nat) (s : GState) (hf : f ≠ 0) :
    runGFrom caps f .slack_response s =
      (slack_process caps.slackOracle s, [.slack_response, .done]) := by
  cases f with
  | zero => exact absurd rfl hf
  | succ f =>
    rw [runGFrom_cons caps f _ s (by decide)]
    have hn : nextG .slack_response (stepG caps .slack_response s) = .done := rfl
    rw [hn, runGFrom_done]
    rfl

/-- The v2 Slack node never writes `notion_result`. -/
lemma slack_process_notion (o : SlackOracle) (s : GState) :
    (slack_process o s).notion_result = s.notion_result := by
  unfold slack_process
  cases o.raised <;> simp

/-- The GitHub node never writes `notion_result`. -/
lemma github_process_notion (o : Except String GithubOutcome) (s : GState) :
    (github_process o s).notion_result = s.notion_result := by
  unfold github_process
  cases o <;> simp [apply_ite]

end V2Graph

/-- Counterexample to C6: a request already classified `task_creation` whose
analysis text contains none of the fix/improve/required signal terms still
triggers task creation — the code combines the two conditions with OR, not
AND: the route flag alone routes GitHub research onward to the Notion task
node. -/
theorem claim6_counterexample :
    V2Graph.determine_next_after_github
        (V2Graph.github_process (Except.ok ⟨[], [], [], "分析が完了しました"⟩)
          { V2Graph.initialGState "タスクを作成して" none none with
              query_type := "task_creation" }) = "notion_task" ∧
    V2Graph.githubNeedsTask "task_creation" [] "分析が完了しました" = true ∧
    (V2Graph.signalTerms.any fun term =>
      PyStr.pyContains (PyStr.pyLower "分析が完了しました") term) = false := by
  decide

/-- C6 as amended: task creation is triggered when the route already says
`task_creation` OR when some code analysis mentions a problem AND the analysis
summary contains a signal term; when neither disjunct holds, GitHub research
routes to the Slack response and no Notion task step runs — `notion_result`
is left untouched. -/
theorem V2Graph.claim6_task_trigger :
    (∀ (s : GState) (o : GithubOutcome),
      s.query_type ≠ "task_creation" →
      (o.code_analyses.any (fun a => PyStr.pyContains a.analysis "問題") &&
        signalTerms.any (fun term =>
          PyStr.pyContains (PyStr.pyLower o.analysis_text) term)) = false →
      determine_next_after_github (github_process (Except.ok o) s) = "slack_response") ∧
    (∀ (s : GState) (o : GithubOutcome),
      (s.query_type = "task_creation" ∨
        (o.code_analyses.any (fun a => PyStr.pyContains a.analysis "問題") &&
          signalTerms.any (fun term =>
            PyStr.pyContains (PyStr.pyLower o.analysis_text) term)) = true) →
      determine_next_after_github (github_process (Except.ok o) s) = "notion_task") ∧
    (∀ (caps : GCaps) (s : GState) (o : GithubOutcome) (f : Nat),
      caps.githubOutcome = Except.ok o →
      s.query_type ≠ "task_creation" →
      (o.code_analyses.any (fun a => PyStr.pyContains a.analysis "問題") &&
        signalTerms.any (fun term =>
          PyStr.pyContains (PyStr.pyLower o.analysis_text) term)) = false →
      (runGFrom caps (f + 3) .github_research s).2 =
        [.github_research, .slack_response, .done] ∧
      (runGFrom caps (f + 3) .github_research s).1.notion_result = s.notion_result) := by
  refine ⟨?_, ?_, ?_⟩
  · intro s o hq hsig
    have hneeds : githubNeedsTask s.query_type o.code_analyses o.analysis_text = false := by
      simp [githubNeedsTask, hq, hsig]
    simp [github_process, hneeds, determine_next_after_github, hq]
  · intro s o h
    rcases h with hq | hsig
    · simp [github_process, determine_next_after_github, githubNeedsTask, hq]
    · by_cases hq : s.query_type = "task_creation" <;>
        simp [github_process, determine_next_after_github, githubNeedsTask, hq, hsig]
  · intro caps s o f hcap hq hsig
    have hneeds : githubNeedsTask s.query_type o.code_analyses o.analysis_text = false := by
      simp [githubNeedsTask, hq, hsig]
    have hstep : stepG caps .github_research s = github_process (Except.ok o) s := by
      simp [stepG, hcap]
    have hqt : (github_process (Except.ok o) s).query_type = s.query_type := by
      simp [github_process, hneeds]
    have hnext : nextG .github_research (stepG caps .github_research s) = .slack_response := by
      rw [show nextG .github_research (stepG caps .github_research s) =
        nodeOfLabel (determine_next_after_github (stepG caps .github_research s)) from rfl]
      rw [hstep]
      simp [determine_next_after_github, hqt, hq, nodeOfLabel]
    constructor
    · rw [runGFrom_cons caps (f + 2) _ s (by decide), hnext,
        runGFrom_slack_out caps (f + 2) _ (by simp)]
    · rw [runGFrom_cons caps (f + 2) _ s (by decide), hnext,
        runGFrom_slack_out caps (f + 2) _ (by simp)]
      rw [show ((slack_process caps.slackOracle (stepG caps .github_research s),
          [GNode.slack_response, GNode.done]).1, GNode.github_research ::
          (slack_process caps.slackOracle (stepG caps .github_research s),
          [GNode.slack_response, GNode.done]).2).1 =
        slack_process caps.slackOracle (stepG caps .github_research s) from rfl]
      rw [slack_process_notion, hstep, github_process_notion]

/-- Witness for C6 as amended: a code-issue request with no problem markers
and no signal terms goes to the Slack response, not to task creation. -/
theorem claim6_task_trigger_witness :
    V2Graph.determine_next_after_github
        (V2Graph.github_process (Except.ok ⟨[], [], [], "調査のまとめです"⟩)
          { V2Graph.initialGState "ログイン周りを調べて" none none with
              query_type := "code_issue" }) = "slack_response" :=
  V2Graph.claim6_task_trigger.1
    { V2Graph.initialGState "ログイン周りを調べて" none none with
        query_type := "code_issue" }
    ⟨[], [], [], "調査のまとめです"⟩ (by decide) (by decide)

namespace V2Graph

/-- A v2 run whose node routes to the Slack response performs the node, the
Slack response, and stops. -/
lemma runGFrom_two_out (caps : GCaps) (f : Nat) (n : GNode) (s : GState)
    (hd : n ≠ GNode.done)
    (hnext : nextG n (stepG caps n s) = .slack_response) :
    runGFrom caps (f + 2) n s =
      (slack_process caps.slackOracle (stepG caps n s),
        [n, .slack_response, .done]) := by
  rw [runGFrom_cons caps (f + 1) n s hd, hnext,
    runGFrom_slack_out caps (f + 1) _ (by simp)]

end V2Graph

/-- Counterexample to C7: when persisting the Notion task raises, nothing is
appended to the `messages` transcript — the failure is recorded in
`notion_result`, not as a transcript entry, so the transcript does not record
exactly one persistence-failure entry (it records zero). -/
theorem claim7_counterexample :
    (V2Graph.notion_process
        ⟨true, Except.ok ["notion_list_databases", "notion_create_page"], some "db-1",
          Except.ok ⟨"コード修正タスク", "説明", "中", "2025-01-01", [], []⟩,
          Except.error "RateLimitError"⟩
        { V2Graph.initialGState "修正タスクを作って" none none with
            query_type := "task_creation",
            github_result := some (.ok [] [] [] "要修正の問題があります") }).messages = [] ∧
    (V2Graph.notion_process
        ⟨true, Except.ok ["notion_list_databases", "notion_create_page"], some "db-1",
          Except.ok ⟨"コード修正タスク", "説明", "中", "2025-01-01", [], []⟩,
          Except.error "RateLimitError"⟩
        { V2Graph.initialGState "修正タスクを作って" none none with
            query_type := "task_creation",
            github_result := some (.ok [] [] [] "要修正の問題があります") }).notion_result =
      some (.err "RateLimitError") := by
  decide

/-- C7 as amended: a failed task persistence never aborts the run — the
failure is recorded exactly once, in `notion_result` (not in the `messages`
list, which no node writes), the workflow advances to the Slack response, and
the final `response` is the explanatory task-creation-failed note (verbatim,
when it fits the length ceiling); a store call that yields no parsable page
identifier is reported as a created task with a placeholder URL, not as a
failure. -/
theorem V2Graph.claim7_persistence_nonblocking :
    (∀ (caps : GCaps) (s : GState) (o : NotionOracle) (tools : List String)
      (dbid : String) (tc : TaskContent) (e : String) (gr : GithubResult) (f : Nat),
      o.has_tool_manager = true →
      o.list_tools = Except.ok tools →
      tools.contains "notion_create_page" = true →
      o.database_id = some dbid →
      o.task_content = Except.ok tc →
      o.create_result = Except.error e →
      s.github_result = some gr →
      caps.notionOracle = o →
      caps.slackOracle.raised = none →
      ("Notionタスクの作成中にエラーが発生しました: " ++ e).length ≤ 2000 →
      (notion_process o s).notion_result = some (.err e) ∧
      (notion_process o s).messages = s.messages ∧
      (runGFrom caps (f + 2) .notion_task s).2 =
        [.notion_task, .slack_response, .done] ∧
      (runGFrom caps (f + 2) .notion_task s).1.response =
        some ("Notionタスクの作成中にエラーが発生しました: " ++ e)) ∧
    (∀ (s : GState) (o : NotionOracle) (tools : List String)
      (dbid : String) (tc : TaskContent) (gr : GithubResult),
      o.has_tool_manager = true →
      o.list_tools = Except.ok tools →
      tools.contains "notion_create_page" = true →
      o.database_id = some dbid →
      o.task_content = Except.ok tc →
      o.create_result = Except.ok none →
      s.github_result = some gr →
      (notion_process o s).notion_result =
        some (.ok tc.title dbid "URL取得できませんでした")) := by
  constructor
  · intro caps s o tools dbid tc e gr f ht hlt hmem hdb htc hcr hgr hcap hraise hlen
    have hmem' : "notion_create_page" ∈ tools := by simpa using hmem
    have hproc : notion_process o s =
        { s with notion_result := some (.err e)
                 response := some ("Notionタスクの作成中にエラーが発生しました: " ++ e) } := by
      simp [notion_process, ht, hlt, hmem', hdb, htc, hcr, hgr]
    have hstep : stepG caps .notion_task s = notion_process o s := by
      simp [stepG, hcap]
    have hnext : nextG .notion_task (stepG caps .notion_task s) = .slack_response := rfl
    have hout := runGFrom_two_out caps f .notion_task s (by decide) hnext
    refine ⟨by rw [hproc], by rw [hproc], by rw [hout], ?_⟩
    rw [hout]
    have hresp : (stepG caps .notion_task s).response =
        some ("Notionタスクの作成中にエラーが発生しました: " ++ e) := by
      rw [hstep, hproc]
    have hne : ("Notionタスクの作成中にエラーが発生しました: " ++ e) ≠ "" := by
      intro hcontra
      have := congrArg String.data hcontra
      simp at this
    have hlen' : "Notionタスクの作成中にエラーが発生しました: ".length + e.length ≤ 2000 := by
      simpa using hlen
    simp [slack_process, hraise, format_response, hresp, hne,
      SlackFmt.summarize_content, hlen']
  · intro s o tools dbid tc gr ht hlt hmem hdb htc hcr hgr
    have hmem' : "notion_create_page" ∈ tools := by simpa using hmem
    simp [notion_process, ht, hlt, hmem', hdb, htc, hcr, hgr]

/-- Witness for C7 as amended: a concrete run in which the Notion page
creation raises; the run ends at the Slack response with the explanatory
failure note as the final response. -/
theorem claim7_persistence_nonblocking_witness :
    (V2Graph.runGFrom
        ⟨"", Except.ok (.okRes "" ""), Except.ok ⟨[], [], [], ""⟩,
          ⟨true, Except.ok ["notion_list_databases", "notion_create_page"], some "db-1",
            Except.ok ⟨"コード修正タスク", "説明", "中", "2025-01-01", [], []⟩,
            Except.error "RateLimitError"⟩,
          ⟨"", "", none⟩⟩ 2 .notion_task
        { V2Graph.initialGState "修正タスクを作って" none none with
            query_type := "task_creation",
            github_result := some (.ok [] [] [] "要修正の問題があります") }).2 =
      [.notion_task, .slack_response, .done] ∧
    (V2Graph.runGFrom
        ⟨"", Except.ok (.okRes "" ""), Except.ok ⟨[], [], [], ""⟩,
          ⟨true, Except.ok ["notion_list_databases", "notion_create_page"], some "db-1",
            Except.ok ⟨"コード修正タスク", "説明", "中", "2025-01-01", [], []⟩,
            Except.error "RateLimitError"⟩,
          ⟨"", "", none⟩⟩ 2 .notion_task
        { V2Graph.initialGState "修正タスクを作って" none none with
            query_type := "task_creation",
            github_result := some (.ok [] [] [] "要修正の問題があります") }).1.response =
      some "Notionタスクの作成中にエラーが発生しました: RateLimitError" := by
  have h := V2Graph.claim7_persistence_nonblocking.1
    ⟨"", Except.ok (.okRes "" ""), Except.ok ⟨[], [], [], ""⟩,
      ⟨true, Except.ok ["notion_list_databases", "notion_create_page"], some "db-1",
        Except.ok ⟨"コード修正タスク", "説明", "中", "2025-01-01", [], []⟩,
        Except.error "RateLimitError"⟩,
      ⟨"", "", none⟩⟩
    { V2Graph.initialGState "修正タスクを作って" none none with
        query_type := "task_creation",
        github_result := some (.ok [] [] [] "要修正の問題があります") }
    ⟨true, Except.ok ["notion_list_databases", "notion_create_page"], some "db-1",
      Except.ok ⟨"コード修正タスク", "説明", "中", "2025-01-01", [], []⟩,
      Except.error "RateLimitError"⟩
    ["notion_list_databases", "notion_create_page"] "db-1"
    ⟨"コード修正タスク", "説明", "中", "2025-01-01", [], []⟩
    "RateLimitError" (.ok [] [] [] "要修正の問題があります") 0
    rfl rfl (by decide) rfl rfl rfl rfl rfl rfl (by decide)
  exact ⟨h.2.2.1, h.2.2.2⟩

/-- C8: the truncation pipeline of `_summarize_content` is deterministic.
Within the ceiling the content is returned unchanged; an over-length content
whose keyword extraction fits the ceiling yields exactly that extraction,
independently of the summarization LLM (which is therefore only consulted as a
last resort); and when the extraction also overflows, the output is the LLM
summary as-is if it fits, else its hard truncation with the suffix stating the
original length — a pure function of the content, ceiling and summarization
result. -/
theorem SlackFmt.claim8_truncation_determinism :
    ∀ (content : String) (m : Nat),
      (∀ llm, content.length ≤ m → summarize_content llm content m = content) ∧
      (content.length > m → (extract_summary content).length ≤ m →
        ∀ llm llm2,
          summarize_content llm content m = summarize_content llm2 content m ∧
          summarize_content llm content m = extract_summary content) ∧
      (∀ llm, content.length > m → (extract_summary content).length > m →
        llm.length ≤ m → summarize_content llm content m = llm) ∧
      (∀ llm, content.length > m → (extract_summary content).length > m →
        llm.length > m →
        summarize_content llm content m =
          llm.take (m - 100) ++ "\n\n...(省略されました。全" ++
            toString content.length ++ "文字)") := by
  intro content m
  refine ⟨?_, ?_, ?_, ?_⟩
  · intro llm h
    simp [summarize_content, h]
  · intro h1 h2 llm llm2
    have h1' : ¬ content.length ≤ m := Nat.not_le.mpr h1
    have h2' : ¬ (extract_summary content).length > m := Nat.not_lt.mpr h2
    constructor <;> simp [summarize_content, h1', h2']
  · intro llm h1 h2 h3
    have h1' : ¬ content.length ≤ m := Nat.not_le.mpr h1
    have h3' : ¬ llm.length > m := Nat.not_lt.mpr h3
    simp [summarize_content, h1', h2, h3']
  · intro llm h1 h2 h3
    have h1' : ¬ content.length ≤ m := Nat.not_le.mpr h1
    simp [summarize_content, h1', h2, h3]

/-- Witness for C8: an over-length content whose extraction still overflows a
ceiling of 5 yields the LLM summary when it fits, and the hard truncation with
the original-length suffix when it does not. -/
theorem claim8_truncation_determinism_witness :
    SlackFmt.summarize_content "abc" "aaaaaaa" 5 = "abc" ∧
    SlackFmt.summarize_content "abcdefgh" "aaaaaaa" 5 =
      "\n\n...(省略されました。全7文字)" :=
  ⟨(SlackFmt.claim8_truncation_determinism "aaaaaaa" 5).2.2.1 "abc"
      (by decide) (by decide) (by decide),
   ((SlackFmt.claim8_truncation_determinism "aaaaaaa" 5).2.2.2 "abcdefgh"
      (by decide) (by decide) (by decide)).trans (by decide)⟩
